import Mathlib

/-!
Verification development for the core of `librigidbodytracker`.

The tracker (`src/src/object_tracker.cpp`, class `ObjectTracker`) is embedded
shallowly below:

* Coordinates are exact rationals (`ℚ`); floating-point rounding is not
  modelled.  Comparisons of Euclidean norms from the source are carried out on
  squared norms (squaring is an order isomorphism on nonnegatives), so no
  square roots are needed.
* PCL's ICP engine (`pcl::IterativeClosestPoint`) is external library code;
  it is modelled as an oracle parameter (`IcpOracle`) supplying the aligned
  transform, the convergence flag, and the fitness score of each `align` call.
* PCL's kd-tree `nearestKSearch` is modelled concretely: the k nearest points
  by squared distance, ties broken by ascending index.
* The initializer's mutable cloud copy carries an inert tag per point (its
  index in the incoming cloud) so that consumed markers can be named;
  geometry only ever looks at the point component.
* The binary cloud-log format (`cloudlog.hpp`) is embedded over byte lists;
  the 32-bit float coordinates are represented by their 32-bit patterns,
  since logger and player copy them bytewise.
-/

namespace LRBT

/-- 3D vector over `ℚ` (models `Eigen::Vector3f`). -/
structure Vec3 where
  x : ℚ
  y : ℚ
  z : ℚ
deriving DecidableEq

instance : Zero Vec3 := ⟨⟨0, 0, 0⟩⟩
instance : Add Vec3 := ⟨fun a b => ⟨a.x + b.x, a.y + b.y, a.z + b.z⟩⟩
instance : Sub Vec3 := ⟨fun a b => ⟨a.x - b.x, a.y - b.y, a.z - b.z⟩⟩
instance : SMul ℚ Vec3 := ⟨fun q v => ⟨q * v.x, q * v.y, q * v.z⟩⟩

/-- Squared Euclidean norm (`v.norm()` is compared only against other norms,
so the squared form is used throughout). -/
def Vec3.sqNorm (v : Vec3) : ℚ := v.x ^ 2 + v.y ^ 2 + v.z ^ 2

/-- Squared distance between two points. -/
def sqDist (a b : Vec3) : ℚ := (a - b).sqNorm

/-- 3×3 matrix: the linear part of an affine transform. -/
structure M3 where
  a00 : ℚ
  a01 : ℚ
  a02 : ℚ
  a10 : ℚ
  a11 : ℚ
  a12 : ℚ
  a20 : ℚ
  a21 : ℚ
  a22 : ℚ
deriving DecidableEq

def M3.one : M3 := ⟨1, 0, 0, 0, 1, 0, 0, 0, 1⟩

def M3.apply (m : M3) (v : Vec3) : Vec3 :=
  ⟨m.a00 * v.x + m.a01 * v.y + m.a02 * v.z,
   m.a10 * v.x + m.a11 * v.y + m.a12 * v.z,
   m.a20 * v.x + m.a21 * v.y + m.a22 * v.z⟩

/-- Affine transform (`Eigen::Affine3f`): linear part, translation, and the
Euler angles that `pcl::getTranslationAndEulerAngles` extracts from the linear
part.  The trigonometric extraction is Eigen/PCL library code, so the angles
are carried as data alongside the matrix instead of being recomputed; the
tracker only ever reads them off or compares them. -/
structure Aff where
  lin : M3
  trans : Vec3
  roll : ℚ
  pitch : ℚ
  yaw : ℚ
deriving DecidableEq

/-- The identity transform. -/
def Aff.id3 : Aff := ⟨M3.one, 0, 0, 0, 0⟩

/-- Apply an affine transform to a point. -/
def Aff.apply (t : Aff) (p : Vec3) : Vec3 := t.lin.apply p + t.trans

/-- `Eigen::Translation3f(v) * t`: prepend a pure translation.  The linear
part (hence the extracted Euler angles) is unchanged. -/
def Aff.pretranslate (v : Vec3) (t : Aff) : Aff := { t with trans := t.trans + v }

/-- `DynamicsConfiguration` (header `rigid_body_tracker.h`). -/
structure DynamicsConfiguration where
  maxXVelocity : ℚ
  maxYVelocity : ℚ
  maxZVelocity : ℚ
  maxPitchRate : ℚ
  maxRollRate : ℚ
  maxYawRate : ℚ
  maxRoll : ℚ
  maxPitch : ℚ
  maxFitnessScore : ℚ
deriving DecidableEq

/-- All-zero dynamics configuration, used as the out-of-range default of
`List.getD` (an out-of-range index is a contract violation in the source). -/
def DynamicsConfiguration.zero : DynamicsConfiguration := ⟨0, 0, 0, 0, 0, 0, 0, 0, 0⟩

/-- An observed frame / a marker configuration: an ordered list of points. -/
abbrev Cloud := List Vec3

/-- The initializer's private mutable copy of the cloud: each point tagged
with its index in the incoming cloud.  The tag is inert bookkeeping (geometry
uses only the point), added so consumed markers can be identified. -/
abbrev TCloud := List (ℕ × Vec3)

/-- Per-body mutable state (`libobjecttracker::Object`).  The time point
`m_lastValidTransform` is a rational number of seconds. -/
structure Object where
  m_markerConfigurationIdx : ℕ
  m_dynamicsConfigurationIdx : ℕ
  m_lastTransformation : Aff
  m_velocity : Vec3
  m_lastValidTransform : ℚ
  m_lastTransformationValid : Bool
deriving DecidableEq

/-- `Object::center()`: the translation part of the last transformation. -/
def Object.center (o : Object) : Vec3 := o.m_lastTransformation.trans

/-- Result of one `icp.align` call: convergence flag, final transformation,
and fitness score. -/
structure IcpResult where
  converged : Bool
  finalTransformation : Aff
  fitnessScore : ℚ
deriving DecidableEq

/-- The external PCL ICP engine, modelled as an oracle.

`align target source guess maxCorrDist` models the tracking-path call
(`runICP`): maximum iterations are the constant 5 there.

`initAlign target source center i` models the initializer's yaw-sweep call:
the initial guess is `pcl::getTransformation(center, 0, 0, i·2π/N_YAW)` (built
by PCL from the centroid and the i-th yaw), and the returned pair is
`(getFitnessScore(), getFinalTransformation())` after `align`. -/
structure IcpOracle where
  align : Cloud → Cloud → Aff → ℚ → IcpResult
  initAlign : Cloud → Cloud → Vec3 → ℕ → ℚ × Aff

/-- Largest single-precision float (`FLT_MAX` = 2¹²⁸ − 2¹⁰⁴), as an exact
rational literal. -/
def FLT_MAX : ℚ := 340282346638528859811704183484516925440

/-- Largest double (`DBL_MAX` = 2¹⁰²⁴ − 2⁹⁷¹), as an exact rational literal. -/
def DBL_MAX : ℚ := 179769313486231570814527423731704356798070567525844996598917476803157260780028538760589558632766878171540458953514382464234321326889464182768467546703537516986049910576551282076245490090389328944075868508455133942304583236903222948165808559332123348274797826204144723168738177180919299881250404026184124858368

/-- `0.005 * 0.005` — the initializer's 5 mm (squared) acceptance bound. -/
def INIT_MAX_HAUSDORFF_DIST2 : ℚ := 1 / 40000

/-- `N_YAW`: number of yaw guesses swept by the initializer. -/
def N_YAW : ℕ := 20

/-- `fabs`, written out so it evaluates by kernel reduction. -/
def fabs (q : ℚ) : ℚ := if q < 0 then -q else q

/-- `std::min` on scalars: `b < a ? b : a`. -/
def stdmin (a b : ℚ) : ℚ := if b < a then b else a

/-- Ordering used by the kd-tree model: ascending squared distance, ties by
ascending index. -/
def distLe (a b : ℕ × ℚ) : Prop := a.2 < b.2 ∨ (a.2 = b.2 ∧ a.1 ≤ b.1)

instance : DecidableRel distLe := fun a b => by unfold distLe; infer_instance

/-- Point of a tagged cloud at position `i` (zero point when out of range). -/
def getPt (c : TCloud) (i : ℕ) : Vec3 := (c.getD i (0, (0 : Vec3))).2

/-- `kdtree.nearestKSearch(q, k)`: positions (into the current cloud) of the
`k` nearest points together with their squared distances, nearest first, ties
broken by ascending position. -/
def nearestK (c : TCloud) (q : Vec3) (k : ℕ) : List (ℕ × ℚ) :=
  (((List.range c.length).map fun i => (i, sqDist (getPt c i) q)).insertionSort distLe).take k

/-- Tag a cloud with positions starting at `i`. -/
def tagFrom : ℕ → Cloud → TCloud
  | _, [] => []
  | i, p :: ps => (i, p) :: tagFrom (i + 1) ps

/-- Forget the tags. -/
def untag (c : TCloud) : Cloud := c.map Prod.snd

/-- The erase loop of the initializer (`for (int idx : objTakePts)
markers->erase(markers->begin() + idx);`), instrumented to also return the
removed entries in removal order.  An index that is out of range at its turn
would be `erase(end())` in the source — undefined behavior; the model makes
that case a no-op, and `erasesOk` singles out exactly the executions in
which it never occurs (those whose C++ behavior is defined), so no verdict
rests on the choice. -/
def eraseTake (c : TCloud) : List ℕ → TCloud × TCloud
  | [] => (c, [])
  | i :: is =>
    match c.get? i with
    | some p =>
      let r := eraseTake (c.eraseIdx i) is
      (r.1, p :: r.2)
    | none => eraseTake c is

/-- `std::sort(objTakePts.rbegin(), objTakePts.rend())`: sort descending.
`std::sort` is external library code; a verified insertion sort with the same
specification stands in for it. -/
def sortDesc (l : List ℕ) : List ℕ := l.insertionSort (· ≥ ·)

/-- Whether every erase of a sequence acts on a dereferenceable iterator
(`idx < markers->size()` at its turn): exactly the condition under which the
C++ behavior of the erase loop is defined. -/
def erasesOk : TCloud → List ℕ → Bool
  | _, [] => true
  | c, i :: is => decide (i < c.length) && erasesOk (c.eraseIdx i) is

/-- The squared minimum pairwise distance between the objects' nominal
centers; the running minimum starts at `FLT_MAX` (squared here).  Models the
double loop computing `closest` in `ObjectTracker::initialize`. -/
def closest2 (objs : List Object) : ℚ :=
  (pairSq objs).foldl stdmin (FLT_MAX ^ 2)
where
  /-- Squared distances of all pairs `(i, j)` with `i < j`, in loop order. -/
  pairSq : List Object → List ℚ
    | [] => []
    | o :: os => (os.map fun p => sqDist o.center p.center) ++ pairSq os

/-- `max_deviation = closest / 3`, squared: `closest² / 9`. -/
def max_deviation2 (objs : List Object) : ℚ := closest2 objs / 9

/-- The centroid of the k nearest observed markers to the nominal center
(`actualCenter` in the source): sum the returned neighbours, divide by
`objNpts`.  (If the cloud holds fewer than `objNpts` points the C++ reads out
of bounds — undefined behaviour; here only the returned neighbours are
summed.) -/
def initActualCenter (c : TCloud) (nominalCenter : Vec3) (objNpts : ℕ) : Vec3 :=
  ((objNpts : ℚ))⁻¹ •
    ((nearestK c nominalCenter objNpts).foldl (fun s pd => s + getPt c pd.1) 0)

/-- The yaw sweep: try `N_YAW` guesses, keep the transformation of the
strictly best fitness (`err < bestErr`, running best starting at `DBL_MAX`).
The accumulator's initial transform stands in for the C++ uninitialized
`bestTransformation` (never returned unless no guess beats `DBL_MAX`). -/
def bestYaw (oracle : IcpOracle) (target source : Cloud) (center : Vec3) : Aff :=
  ((List.range N_YAW).foldl
    (fun best i =>
      let r := oracle.initAlign target source center i
      if r.1 < best.1 then r else best)
    (DBL_MAX, Aff.id3)).2

/-- The per-model-marker fit check: for each model marker transformed by the
best transform, the position of its single nearest observed marker and
whether its squared distance is within `INIT_MAX_HAUSDORFF_DIST2`.  An empty
cloud yields no nearest neighbour (`none`, check failed); in C++ that query
would read garbage. -/
def fitChecks (c : TCloud) (tr : Aff) (objMarkers : Cloud) : List (Option ℕ × Bool) :=
  objMarkers.map fun m =>
    match (nearestK c (tr.apply m) 1).head? with
    | some pd => (some pd.1, decide (pd.2 ≤ INIT_MAX_HAUSDORFF_DIST2))
    | none => (none, false)

/-- Result of the initializer's per-body iteration. -/
structure InitStepOut where
  object : Object
  cloud : TCloud
  accepted : Bool
  taken : TCloud
  takePts : List ℕ
deriving DecidableEq

/-- One iteration of the initializer's per-body loop (`ObjectTracker::
initialize`, body of `for (int iObj = ...)`). -/
def initStep (mcfgs : List Cloud) (oracle : IcpOracle) (maxDev2 : ℚ)
    (c : TCloud) (obj : Object) : InitStepOut :=
  let objMarkers := mcfgs.getD obj.m_markerConfigurationIdx []
  let objNpts := objMarkers.length
  let nominalCenter := obj.center
  let actualCenter := initActualCenter c nominalCenter objNpts
  if (actualCenter - nominalCenter).sqNorm > maxDev2 then
    ⟨obj, c, false, [], []⟩
  else
    let best := bestYaw oracle (untag c) objMarkers actualCenter
    let checks := fitChecks c best objMarkers
    let fitGood := checks.all (·.2)
    let takePts := checks.filterMap Prod.fst
    if fitGood then
      let r := eraseTake c (sortDesc takePts)
      ⟨{ obj with m_lastTransformation := best }, r.1, true, r.2, takePts⟩
    else
      ⟨obj, c, false, [], takePts⟩

/-- The initializer's loop over all objects, threading the mutable cloud and
collecting per-body outcomes. -/
def initLoop (mcfgs : List Cloud) (oracle : IcpOracle) (maxDev2 : ℚ) :
    List Object → TCloud →
      List Object × TCloud × List Bool × List TCloud × List (List ℕ)
  | [], c => ([], c, [], [], [])
  | o :: os, c =>
    let r := initStep mcfgs oracle maxDev2 c o
    let rest := initLoop mcfgs oracle maxDev2 os r.cloud
    (r.object :: rest.1, rest.2.1, r.accepted :: rest.2.2.1,
      r.taken :: rest.2.2.2.1, r.takePts :: rest.2.2.2.2)

/-- Result of one `ObjectTracker::initialize` call.  `removed` lists, per
body, the entries erased from the private cloud copy; `takePts` lists, per
body, the `objTakePts` indices; `accepted` the per-body fit outcomes. -/
structure InitRun where
  success : Bool
  objects : List Object
  markers : TCloud
  accepted : List Bool
  removed : List TCloud
  takePts : List (List ℕ)
deriving DecidableEq

/-- `ObjectTracker::initialize` on the private tagged copy of the cloud.
`success` is `allFitsGood` (the conjunction of all per-body outcomes). -/
def initializeRun (mcfgs : List Cloud) (oracle : IcpOracle)
    (objs : List Object) (cloud : Cloud) : InitRun :=
  let r := initLoop mcfgs oracle (max_deviation2 objs) objs (tagFrom 0 cloud)
  ⟨r.2.2.1.all id, r.1, r.2.1, r.2.2.1, r.2.2.2.1, r.2.2.2.2⟩

/-- Whether, along the initializer's loop (threading the mutable cloud the
same way), every accepted body's erase sequence stays in bounds — i.e. the
C++ behavior of the whole run's erases is defined. -/
def initErasesOk (mcfgs : List Cloud) (oracle : IcpOracle) (md2 : ℚ) :
    List Object → TCloud → Bool
  | [], _ => true
  | o :: os, c =>
    let r := initStep mcfgs oracle md2 c o
    (!r.accepted || erasesOk c (sortDesc r.takePts)) &&
      initErasesOk mcfgs oracle md2 os r.cloud

/-- One failing dynamics check: label, measured value, configured limit. -/
structure CheckFail where
  label : String
  value : ℚ
  limit : ℚ
deriving DecidableEq

/-- A message passed to the warning callback (`logWarn`).  The C++ formats
these as strings; the payload of the dynamics warning is the list of failing
checks with measured and limit values, in the order the code appends them. -/
inductive Warning where
  | initFailed
  | icpNotConverged
  | dynamicCheckFailed (entries : List CheckFail)
deriving DecidableEq

/-- `dt`: elapsed seconds between the frame stamp and the body's last valid
transform time. -/
def bodyDt (stamp : ℚ) (obj : Object) : ℚ := stamp - obj.m_lastValidTransform

/-- The ICP result for one body on the tracking path: target is the input
cloud, source the body's marker configuration, guess the motion-predicted
transform, max correspondence distance `maxXVelocity * dt` (max iterations:
the constant 5). -/
def bodyRes (mcfgs : List Cloud) (dcfgs : List DynamicsConfiguration)
    (oracle : IcpOracle) (stamp : ℚ) (markers : Cloud) (obj : Object) : IcpResult :=
  let dt := bodyDt stamp obj
  let dynConf := dcfgs.getD obj.m_dynamicsConfigurationIdx DynamicsConfiguration.zero
  let src := mcfgs.getD obj.m_markerConfigurationIdx []
  oracle.align markers src
    (Aff.pretranslate (dt • obj.m_velocity) obj.m_lastTransformation)
    (dynConf.maxXVelocity * dt)

/-- The nine-way dynamics gate, exactly as in the source: all strict. -/
def bodyGate (d : DynamicsConfiguration) (dt : ℚ) (last : Aff) (res : IcpResult) : Prop :=
  fabs ((res.finalTransformation.trans.x - last.trans.x) / dt) < d.maxXVelocity ∧
  fabs ((res.finalTransformation.trans.y - last.trans.y) / dt) < d.maxYVelocity ∧
  fabs ((res.finalTransformation.trans.z - last.trans.z) / dt) < d.maxZVelocity ∧
  fabs ((res.finalTransformation.roll - last.roll) / dt) < d.maxRollRate ∧
  fabs ((res.finalTransformation.pitch - last.pitch) / dt) < d.maxPitchRate ∧
  fabs ((res.finalTransformation.yaw - last.yaw) / dt) < d.maxYawRate ∧
  fabs res.finalTransformation.roll < d.maxRoll ∧
  fabs res.finalTransformation.pitch < d.maxPitch ∧
  res.fitnessScore < d.maxFitnessScore

instance : ∀ d dt last res, Decidable (bodyGate d dt last res) := fun _ _ _ _ => by
  unfold bodyGate; infer_instance

/-- The failing checks listed by the rejection warning, in code order; the
message condition is the complement (`≥`) of each gate check. -/
def failedChecks (d : DynamicsConfiguration) (dt : ℚ) (last : Aff) (res : IcpResult) :
    List CheckFail :=
  let vx := (res.finalTransformation.trans.x - last.trans.x) / dt
  let vy := (res.finalTransformation.trans.y - last.trans.y) / dt
  let vz := (res.finalTransformation.trans.z - last.trans.z) / dt
  let wroll := (res.finalTransformation.roll - last.roll) / dt
  let wpitch := (res.finalTransformation.pitch - last.pitch) / dt
  let wyaw := (res.finalTransformation.yaw - last.yaw) / dt
  (if fabs vx ≥ d.maxXVelocity then [⟨"vx", vx, d.maxXVelocity⟩] else []) ++
  (if fabs vy ≥ d.maxYVelocity then [⟨"vy", vy, d.maxYVelocity⟩] else []) ++
  (if fabs vz ≥ d.maxZVelocity then [⟨"vz", vz, d.maxZVelocity⟩] else []) ++
  (if fabs wroll ≥ d.maxRollRate then [⟨"wroll", wroll, d.maxRollRate⟩] else []) ++
  (if fabs wpitch ≥ d.maxPitchRate then [⟨"wpitch", wpitch, d.maxPitchRate⟩] else []) ++
  (if fabs wyaw ≥ d.maxYawRate then [⟨"wyaw", wyaw, d.maxYawRate⟩] else []) ++
  (if fabs res.finalTransformation.roll ≥ d.maxRoll then
    [⟨"roll", res.finalTransformation.roll, d.maxRoll⟩] else []) ++
  (if fabs res.finalTransformation.pitch ≥ d.maxPitch then
    [⟨"pitch", res.finalTransformation.pitch, d.maxPitch⟩] else []) ++
  (if res.fitnessScore ≥ d.maxFitnessScore then
    [⟨"fitness", res.fitnessScore, d.maxFitnessScore⟩] else [])

/-- One iteration of the tracking loop in `ObjectTracker::runICP` (body of
`for (auto& object : m_objects)`): reset the valid flag, align, and either
skip (not converged), commit (gate passed) or warn (gate failed). -/
def perBody (mcfgs : List Cloud) (dcfgs : List DynamicsConfiguration)
    (oracle : IcpOracle) (stamp : ℚ) (markers : Cloud) (obj : Object) :
    Object × List Warning :=
  let obj0 := { obj with m_lastTransformationValid := false }
  let dt := bodyDt stamp obj
  let dynConf := dcfgs.getD obj.m_dynamicsConfigurationIdx DynamicsConfiguration.zero
  let res := bodyRes mcfgs dcfgs oracle stamp markers obj
  if res.converged = false then
    (obj0, [Warning.icpNotConverged])
  else
    if bodyGate dynConf dt obj.m_lastTransformation res then
      ({ obj with
          m_velocity := dt⁻¹ • (res.finalTransformation.trans - obj.center),
          m_lastTransformation := res.finalTransformation,
          m_lastValidTransform := stamp,
          m_lastTransformationValid := true }, [])
    else
      (obj0, [Warning.dynamicCheckFailed (failedChecks dynConf dt obj.m_lastTransformation res)])

/-- The tracking loop over all objects, collecting warnings in order. -/
def updateLoop (mcfgs : List Cloud) (dcfgs : List DynamicsConfiguration)
    (oracle : IcpOracle) (stamp : ℚ) (markers : Cloud) :
    List Object → List Object × List Warning
  | [] => ([], [])
  | o :: os =>
    let r := perBody mcfgs dcfgs oracle stamp markers o
    let rest := updateLoop mcfgs dcfgs oracle stamp markers os
    (r.1 :: rest.1, r.2 ++ rest.2)

/-- Tracker state (`libobjecttracker::ObjectTracker` data members). -/
structure ObjectTracker where
  m_markerConfigurations : List Cloud
  m_dynamicsConfigurations : List DynamicsConfiguration
  m_objects : List Object
  m_initialized : Bool
  m_init_attempts : ℕ
deriving DecidableEq

/-- The constructor: configurations and objects as given, `m_initialized`
false, `m_init_attempts` zero. -/
def ObjectTracker.construct (dcfgs : List DynamicsConfiguration)
    (mcfgs : List Cloud) (objs : List Object) : ObjectTracker :=
  ⟨mcfgs, dcfgs, objs, false, 0⟩

/-- `ObjectTracker::runICP(stamp, markers)` — the body of `update`.

`m_initialized = m_initialized || initialize(markers)` short-circuits: once
initialized, `initialize` is no longer invoked (and `m_init_attempts`, which
`initialize` increments unconditionally, stays put).  If still uninitialized
a warning is emitted.  In either case the code then runs the per-body
tracking loop — there is no early return.  Returns the new state and the
warnings passed to `logWarn`, in order. -/
def runICP (oracle : IcpOracle) (stamp : ℚ) (markers : Cloud)
    (s : ObjectTracker) : ObjectTracker × List Warning :=
  let ini :=
    if s.m_initialized then (true, s.m_objects, s.m_init_attempts)
    else
      let r := initializeRun s.m_markerConfigurations oracle s.m_objects markers
      (r.success, r.objects, s.m_init_attempts + 1)
  let w0 : List Warning := if ini.1 then [] else [Warning.initFailed]
  let r := updateLoop s.m_markerConfigurations s.m_dynamicsConfigurations
    oracle stamp markers ini.2.1
  ({ s with m_objects := r.1, m_initialized := ini.1, m_init_attempts := ini.2.2 },
    w0 ++ r.2)

/-- `ObjectTracker::update(time, pointCloud)` forwards to `runICP`. -/
def update (oracle : IcpOracle) (stamp : ℚ) (markers : Cloud)
    (s : ObjectTracker) : ObjectTracker × List Warning :=
  runICP oracle stamp markers s

/-- Play a sequence of stamped frames through the tracker. -/
def runFrames (oracle : IcpOracle) (s : ObjectTracker)
    (frames : List (ℚ × Cloud)) : ObjectTracker :=
  frames.foldl (fun st f => (runICP oracle f.1 f.2 st).1) s

end LRBT

namespace CloudLog

/-- One logged frame: timestamp in milliseconds and the points' coordinates.
Each coordinate is the 32-bit pattern of the float: `PointCloudLogger::log`
and `PointCloudPlayer::load` copy the four bytes verbatim, so the pattern is
the faithful representation. -/
structure Frame where
  millis : ℕ
  points : List (ℕ × ℕ × ℕ)
deriving DecidableEq

/-- Little-endian bytes of a 32-bit value (`write<uint32_t>` / `write` of a
float pattern). -/
def le32 (n : ℕ) : List ℕ :=
  [n % 256, n / 256 % 256, n / 65536 % 256, n / 16777216 % 256]

/-- `read<uint32_t>`: consume four bytes, little-endian; `none` models the
stream entering the failed state (fewer than four bytes left). -/
def read32 : List ℕ → Option (ℕ × List ℕ)
  | b0 :: b1 :: b2 :: b3 :: s => some (b0 + 256 * b1 + 65536 * b2 + 16777216 * b3, s)
  | _ => none

/-- Encode one point: x, y, z patterns in order. -/
def encodePoint (p : ℕ × ℕ × ℕ) : List ℕ := le32 p.1 ++ le32 p.2.1 ++ le32 p.2.2

/-- `PointCloudLogger::log(millis, cloud)`: timestamp, point count, then the
coordinates. -/
def logFrame (f : Frame) : List ℕ :=
  le32 f.millis ++ le32 f.points.length ++ (f.points.map encodePoint).flatten

/-- Successive `log` calls append records with no framing. -/
def logFrames (fs : List Frame) : List ℕ := (fs.map logFrame).flatten

/-- The player's inner loop reading `size` points.  A short read mid-point
yields zeros where the C++ `read<float>` would return an indeterminate
value. -/
def readPoints : ℕ → List ℕ → List (ℕ × ℕ × ℕ) × List ℕ
  | 0, s => ([], s)
  | n + 1, s =>
    let x := (read32 s).getD (0, [])
    let y := (read32 x.2).getD (0, [])
    let z := (read32 y.2).getD (0, [])
    let rest := readPoints n z.2
    ((x.1, y.1, z.1) :: rest.1, rest.2)

/-- `PointCloudPlayer::load`, on the byte stream.  The loop reads a
timestamp; if that read fails the stream is exhausted and the loop breaks
cleanly; otherwise it reads the count and that many points and appends the
record.  Recursion is by fuel bounded by the byte count: every iteration
consumes at least the four timestamp bytes, so the fuel never runs out. -/
def loadAux : ℕ → List ℕ → List Frame
  | 0, _ => []
  | fuel + 1, s =>
    match read32 s with
    | none => []
    | some (millis, s1) =>
      let sz := (read32 s1).getD (0, [])
      let pts := readPoints sz.1 sz.2
      ⟨millis, pts.1⟩ :: loadAux fuel pts.2

/-- `PointCloudPlayer::load`. -/
def load (s : List ℕ) : List Frame := loadAux s.length s

/-- All stored quantities fit in 32 bits (they do by construction in the
C++: `uint32_t` timestamps and counts, 32-bit float patterns). -/
def FrameBounded (f : Frame) : Prop :=
  f.millis < 4294967296 ∧ f.points.length < 4294967296 ∧
    ∀ p ∈ f.points, p.1 < 4294967296 ∧ p.2.1 < 4294967296 ∧ p.2.2 < 4294967296

instance : ∀ f, Decidable (FrameBounded f) := fun f => by
  unfold FrameBounded; infer_instance

/-- Scenario S6 fixture: three frames with point counts 0, 4, 7 and arbitrary
32-bit coordinate patterns. -/
def fsS6 : List Frame :=
  [⟨0, []⟩,
   ⟨17, [(1065353216, 0, 3), (4, 3212836864, 6), (2143289344, 8, 9), (10, 11, 4294967295)]⟩,
   ⟨4294967295, [(1, 2, 3), (4, 5, 6), (7, 8, 9), (10, 11, 12), (13, 14, 15),
     (16, 17, 18), (19, 20, 21)]⟩]

end CloudLog

namespace LRBT

/-! Concrete fixtures used by witnesses and counterexamples. -/

/-- Pure translation along x by `q`. -/
def affX (q : ℚ) : Aff := { Aff.id3 with trans := ⟨q, 0, 0⟩ }

/-- Generous dynamics limits (everything allowed). -/
def dynBig : DynamicsConfiguration := ⟨1000, 1000, 1000, 1000, 1000, 1000, 1000, 1000, 1000⟩

/-- A body at the origin using marker configuration 0 and dynamics 0. -/
def obj0 : Object := ⟨0, 0, Aff.id3, 0, 0, false⟩

/-- A body whose nominal center sits 0.3 m along x. -/
def objB : Object := ⟨0, 0, affX (3 / 10), 0, 0, false⟩

/-- Oracle: tracking align converges to the identity with zero fitness; the
yaw sweep returns the identity with zero fitness. -/
def oracleA : IcpOracle := ⟨fun _ _ _ _ => ⟨true, Aff.id3, 0⟩, fun _ _ _ _ => (0, Aff.id3)⟩

/-- Oracle whose tracking align never converges. -/
def oracleNC : IcpOracle := ⟨fun _ _ _ _ => ⟨false, Aff.id3, 0⟩, fun _ _ _ _ => (0, Aff.id3)⟩

/-- Oracle whose yaw sweep lands one metre off (the initializer's 5 mm fit
check then fails); tracking align converges to the identity. -/
def oracleC1 : IcpOracle := ⟨fun _ _ _ _ => ⟨true, Aff.id3, 0⟩, fun _ _ _ _ => (0, affX 1)⟩

/-- Oracle whose yaw sweep translates by 10 m along x. -/
def oracleC3 : IcpOracle := ⟨fun _ _ _ _ => ⟨true, Aff.id3, 0⟩, fun _ _ _ _ => (0, affX 10)⟩

/-- A single marker at the origin. -/
def cloud0 : Cloud := [⟨0, 0, 0⟩]

/-- One marker configuration: a single marker at the body origin. -/
def mcfg1 : List Cloud := [[⟨0, 0, 0⟩]]

/-- A freshly constructed tracker with one one-marker body. -/
def sC1 : ObjectTracker := ObjectTracker.construct [dynBig] mcfg1 [obj0]

/-- One body with two coincident model markers. -/
def mcfgsC3 : List Cloud := [[⟨0, 0, 0⟩, ⟨0, 0, 0⟩]]

/-- Observed cloud for the out-of-range-erase failing input. -/
def cloudC3 : Cloud := [⟨0, 0, 0⟩, ⟨10, 0, 0⟩]

/-- An already-initialized tracker with three recorded attempts. -/
def sInit3 : ObjectTracker := ⟨[], [], [], true, 3⟩

/-- A tagged single faraway point, for the deviation-gate witness. -/
def cloud7T : TCloud := tagFrom 0 [⟨5, 0, 0⟩]

end LRBT

/-! ## Theorems -/

/- Batteries marks the rational operations `@[irreducible]`; re-allow
unfolding so that concrete states evaluate inside `decide`. -/
unseal Rat.add Rat.mul Rat.inv Rat.sub

set_option maxRecDepth 4000

namespace CloudLog

/-- Decoding four little-endian bytes recovers the encoded value modulo 2³². -/
theorem read32_le32 (n : ℕ) (rest : List ℕ) :
    read32 (le32 n ++ rest) = some (n % 4294967296, rest) := by
  simp only [le32, List.cons_append, List.nil_append, read32, Option.some.injEq, Prod.mk.injEq,
    and_true]
  omega

/-- Reading back an encoded point list recovers it and leaves the rest of the
stream untouched. -/
theorem readPoints_encode (rest : List ℕ) : ∀ pts : List (ℕ × ℕ × ℕ),
    (∀ p ∈ pts, p.1 < 4294967296 ∧ p.2.1 < 4294967296 ∧ p.2.2 < 4294967296) →
    readPoints pts.length ((pts.map encodePoint).flatten ++ rest) = (pts, rest) := by
  intro pts
  induction pts with
  | nil => intro _; simp [readPoints]
  | cons p ps ih =>
    intro h
    obtain ⟨hx, hy, hz⟩ := h p (List.mem_cons_self p ps)
    have hps := ih fun q hq => h q (List.mem_cons_of_mem p hq)
    simp only [List.map_cons, List.flatten_cons, encodePoint, List.append_assoc,
      List.length_cons, readPoints, read32_le32, Option.getD_some,
      Nat.mod_eq_of_lt hx, Nat.mod_eq_of_lt hy, Nat.mod_eq_of_lt hz, hps]

/-- Each record is at least eight bytes, so the byte count bounds the record
count: the fuel in `load` suffices. -/
theorem logFrames_length_ge : ∀ fs : List Frame, fs.length ≤ (logFrames fs).length := by
  intro fs
  induction fs with
  | nil => simp [logFrames]
  | cons f fs ih =>
    simp only [logFrames, List.map_cons, List.flatten_cons, List.length_append,
      List.length_cons, logFrame, le32] at *
    omega

/-- With enough fuel, decoding an encoded stream recovers the frames. -/
theorem loadAux_encode : ∀ fs : List Frame, (∀ f ∈ fs, FrameBounded f) →
    ∀ fuel, fs.length ≤ fuel → loadAux fuel (logFrames fs) = fs := by
  intro fs
  induction fs with
  | nil =>
    intro _ fuel _
    cases fuel <;> simp [logFrames, loadAux, read32]
  | cons f fs ih =>
    intro h fuel hfuel
    obtain ⟨hm, hl, hp⟩ := h f (List.mem_cons_self f fs)
    cases fuel with
    | zero => simp at hfuel
    | succ fuel =>
      have hrec := ih (fun g hg => h g (List.mem_cons_of_mem f hg)) fuel (by simpa using hfuel)
      simp only [logFrames, List.map_cons, List.flatten_cons, logFrame, List.append_assoc,
        loadAux, read32_le32, Nat.mod_eq_of_lt hm, Option.getD_some, Nat.mod_eq_of_lt hl]
      rw [readPoints_encode _ f.points hp]
      simpa [logFrames] using hrec

/-- C9: writing any sequence of frames with the point-cloud logger and
reading the byte stream back with the player's `load` yields exactly the
original sequence — same record count, bit-identical timestamps, point
counts and point coordinates — and end-of-file after the last complete
record terminates the stream cleanly. -/
theorem c9_log_roundtrip (fs : List Frame) (h : ∀ f ∈ fs, FrameBounded f) :
    load (logFrames fs) = fs :=
  loadAux_encode fs h _ (logFrames_length_ge fs)

/-- Witness for C9 at scenario S6's shape: frames with point counts 0, 4, 7. -/
theorem c9_log_roundtrip_witness : load (logFrames fsS6) = fsS6 :=
  c9_log_roundtrip fsS6 (by decide)

end CloudLog

namespace LRBT

/-- C2: for a body whose ICP run converged, the new pose is committed (the
valid flag ends true) iff all nine dynamics checks hold strictly; on
acceptance the velocity is the translation difference over dt, the
transformation is the ICP result, the valid time is the frame stamp and the
valid flag is set. -/
theorem c2_dynamics_gate (mcfgs : List Cloud) (dcfgs : List DynamicsConfiguration)
    (oracle : IcpOracle) (stamp : ℚ) (markers : Cloud) (obj : Object)
    (hconv : (bodyRes mcfgs dcfgs oracle stamp markers obj).converged = true) :
    ((perBody mcfgs dcfgs oracle stamp markers obj).1.m_lastTransformationValid = true
      ↔ bodyGate (dcfgs.getD obj.m_dynamicsConfigurationIdx DynamicsConfiguration.zero)
          (bodyDt stamp obj) obj.m_lastTransformation
          (bodyRes mcfgs dcfgs oracle stamp markers obj)) ∧
    (bodyGate (dcfgs.getD obj.m_dynamicsConfigurationIdx DynamicsConfiguration.zero)
        (bodyDt stamp obj) obj.m_lastTransformation
        (bodyRes mcfgs dcfgs oracle stamp markers obj) →
      (perBody mcfgs dcfgs oracle stamp markers obj).1 = { obj with
        m_velocity := (bodyDt stamp obj)⁻¹ •
          ((bodyRes mcfgs dcfgs oracle stamp markers obj).finalTransformation.trans
            - obj.m_lastTransformation.trans),
        m_lastTransformation := (bodyRes mcfgs dcfgs oracle stamp markers obj).finalTransformation,
        m_lastValidTransform := stamp,
        m_lastTransformationValid := true }) := by
  simp only [perBody]
  rw [hconv]
  by_cases hg : bodyGate (dcfgs.getD obj.m_dynamicsConfigurationIdx DynamicsConfiguration.zero)
      (bodyDt stamp obj) obj.m_lastTransformation (bodyRes mcfgs dcfgs oracle stamp markers obj)
  · simp only [if_neg (by decide : ¬(true = false)), if_pos hg]
    exact ⟨⟨fun _ => hg, fun _ => trivial⟩, fun _ => rfl⟩
  · simp only [if_neg (by decide : ¬(true = false)), if_neg hg]
    exact ⟨⟨fun h => by simp at h, fun h => absurd h hg⟩, fun h => absurd h hg⟩

/-- Witness for C2: generous limits, identity alignment — the gate passes and
the pose is committed. -/
theorem c2_dynamics_gate_witness :
    (perBody mcfg1 [dynBig] oracleA 1 cloud0 obj0).1.m_lastTransformationValid = true
      ↔ bodyGate dynBig (bodyDt 1 obj0) obj0.m_lastTransformation
          (bodyRes mcfg1 [dynBig] oracleA 1 cloud0 obj0) :=
  (c2_dynamics_gate mcfg1 [dynBig] oracleA 1 cloud0 obj0 (by decide)).1

end LRBT

namespace LRBT

/-- C5: if the body's ICP run did not converge, or the dynamics gate rejected
the pose, a warning is emitted (for rejection, carrying each failing check
with its measured and limit values) and the body is otherwise unchanged —
transformation, velocity and last valid time as before, valid flag false. -/
theorem c5_reject_unchanged (mcfgs : List Cloud) (dcfgs : List DynamicsConfiguration)
    (oracle : IcpOracle) (stamp : ℚ) (markers : Cloud) (obj : Object) :
    ((bodyRes mcfgs dcfgs oracle stamp markers obj).converged = false →
      perBody mcfgs dcfgs oracle stamp markers obj
        = ({ obj with m_lastTransformationValid := false }, [Warning.icpNotConverged])) ∧
    ((bodyRes mcfgs dcfgs oracle stamp markers obj).converged = true →
      ¬ bodyGate (dcfgs.getD obj.m_dynamicsConfigurationIdx DynamicsConfiguration.zero)
          (bodyDt stamp obj) obj.m_lastTransformation
          (bodyRes mcfgs dcfgs oracle stamp markers obj) →
      perBody mcfgs dcfgs oracle stamp markers obj
        = ({ obj with m_lastTransformationValid := false },
           [Warning.dynamicCheckFailed (failedChecks
             (dcfgs.getD obj.m_dynamicsConfigurationIdx DynamicsConfiguration.zero)
             (bodyDt stamp obj) obj.m_lastTransformation
             (bodyRes mcfgs dcfgs oracle stamp markers obj))])) := by
  constructor
  · intro h
    simp only [perBody]
    rw [h, if_pos rfl]
  · intro h hg
    simp only [perBody]
    rw [h, if_neg (by decide : ¬(true = false)), if_neg hg]

/-- Witness for C5: a non-converging oracle skips the body; with all-zero
limits the gate rejects and the body is unchanged with the failing checks
listed. -/
theorem c5_reject_unchanged_witness :
    perBody mcfg1 [dynBig] oracleNC 1 cloud0 obj0
      = ({ obj0 with m_lastTransformationValid := false }, [Warning.icpNotConverged]) ∧
    perBody mcfg1 [] oracleA 1 cloud0 obj0
      = ({ obj0 with m_lastTransformationValid := false },
         [Warning.dynamicCheckFailed (failedChecks DynamicsConfiguration.zero (bodyDt 1 obj0)
            obj0.m_lastTransformation (bodyRes mcfg1 [] oracleA 1 cloud0 obj0))]) :=
  ⟨(c5_reject_unchanged mcfg1 [dynBig] oracleNC 1 cloud0 obj0).1 (by decide),
   (c5_reject_unchanged mcfg1 [] oracleA 1 cloud0 obj0).2 (by decide) (by decide)⟩

/-- C10: with an empty body list, initialization succeeds vacuously on any
cloud, the tracker becomes initialized on the first update (one attempt), and
no warning is emitted. -/
theorem c10_empty_tracker (oracle : IcpOracle) (stamp : ℚ) (cloud : Cloud)
    (dcfgs : List DynamicsConfiguration) (mcfgs : List Cloud) :
    (initializeRun mcfgs oracle [] cloud).success = true ∧
    (runICP oracle stamp cloud (ObjectTracker.construct dcfgs mcfgs [])).1.m_initialized = true ∧
    (runICP oracle stamp cloud (ObjectTracker.construct dcfgs mcfgs [])).1.m_init_attempts = 1 ∧
    (runICP oracle stamp cloud (ObjectTracker.construct dcfgs mcfgs [])).2 = [] := by
  have h : (initializeRun mcfgs oracle [] cloud).success = true := by
    simp [initializeRun, initLoop]
  have hobjs : (initializeRun mcfgs oracle [] cloud).objects = [] := by
    simp [initializeRun, initLoop]
  refine ⟨h, ?_⟩
  simp [runICP, ObjectTracker.construct, h, hobjs, updateLoop]

/-- On every update the initialized flag is the old flag or-ed with the
success of the initialization attempt (none is made once initialized). -/
theorem runICP_init_eq (oracle : IcpOracle) (stamp : ℚ) (cloud : Cloud) (s : ObjectTracker) :
    (runICP oracle stamp cloud s).1.m_initialized
      = (s.m_initialized ||
          (initializeRun s.m_markerConfigurations oracle s.m_objects cloud).success) := by
  simp only [runICP]
  by_cases h : s.m_initialized <;> simp [h]

/-- Once initialized, one update keeps the flag and does not invoke the
initializer (`m_init_attempts`, which every `initialize` call increments,
stays put). -/
theorem runICP_sticky (oracle : IcpOracle) (stamp : ℚ) (cloud : Cloud) (s : ObjectTracker)
    (h : s.m_initialized = true) :
    (runICP oracle stamp cloud s).1.m_initialized = true ∧
    (runICP oracle stamp cloud s).1.m_init_attempts = s.m_init_attempts := by
  simp [runICP, h]

/-- Once initialized, any sequence of updates keeps the flag and never
invokes the initializer again. -/
theorem runFrames_sticky (oracle : IcpOracle) : ∀ (frames : List (ℚ × Cloud)) (s : ObjectTracker),
    s.m_initialized = true →
    (runFrames oracle s frames).m_initialized = true ∧
    (runFrames oracle s frames).m_init_attempts = s.m_init_attempts := by
  intro frames
  induction frames with
  | nil => intro s h; exact ⟨by simpa [runFrames] using h, by simp [runFrames]⟩
  | cons f fs ih =>
    intro s h
    have hstep := runICP_sticky oracle f.1 f.2 s h
    have hrest := ih (runICP oracle f.1 f.2 s).1 hstep.1
    simp only [runFrames, List.foldl_cons] at *
    exact ⟨hrest.1, hrest.2.trans hstep.2⟩

/-- C8: the initialized flag becomes true exactly on the first update whose
initialization attempt succeeds (flag = old flag OR attempt success), and
once true it never reverts over any later frames, during which the
initializer is never invoked again (attempt counter frozen). -/
theorem c8_sticky_initialized (oracle : IcpOracle) (stamp : ℚ) (cloud : Cloud)
    (frames : List (ℚ × Cloud)) (s : ObjectTracker) :
    ((runICP oracle stamp cloud s).1.m_initialized
      = (s.m_initialized ||
          (initializeRun s.m_markerConfigurations oracle s.m_objects cloud).success)) ∧
    (s.m_initialized = true →
      (runFrames oracle s frames).m_initialized = true ∧
      (runFrames oracle s frames).m_init_attempts = s.m_init_attempts) :=
  ⟨runICP_init_eq oracle stamp cloud s, fun h => runFrames_sticky oracle frames s h⟩

/-- Witness for C8: an initialized tracker stays initialized across a frame
and its attempt counter stays at 3. -/
theorem c8_sticky_initialized_witness :
    (runFrames oracleA sInit3 [(1, [])]).m_initialized = true ∧
    (runFrames oracleA sInit3 [(1, [])]).m_init_attempts = 3 :=
  (c8_sticky_initialized oracleA 1 [] [(1, [])] sInit3).2 rfl

/-- C1 as amended: when an uninitialized tracker's initialization attempt
fails, the warning is emitted and the flag stays false (attempt counted), but
`runICP` does not return early — the per-body ICP/dynamics loop still runs on
every body (on the initializer's output objects), so body state can change
beyond the failed initializer's effects. -/
theorem c1_no_early_return (oracle : IcpOracle) (stamp : ℚ) (cloud : Cloud) (s : ObjectTracker)
    (h0 : s.m_initialized = false)
    (hf : (initializeRun s.m_markerConfigurations oracle s.m_objects cloud).success = false) :
    (runICP oracle stamp cloud s).1.m_initialized = false ∧
    (runICP oracle stamp cloud s).1.m_init_attempts = s.m_init_attempts + 1 ∧
    (runICP oracle stamp cloud s).2
      = Warning.initFailed :: (updateLoop s.m_markerConfigurations s.m_dynamicsConfigurations
          oracle stamp cloud
          (initializeRun s.m_markerConfigurations oracle s.m_objects cloud).objects).2 ∧
    (runICP oracle stamp cloud s).1.m_objects
      = (updateLoop s.m_markerConfigurations s.m_dynamicsConfigurations oracle stamp cloud
          (initializeRun s.m_markerConfigurations oracle s.m_objects cloud).objects).1 := by
  simp [runICP, h0, hf]

/-- Witness for C1's amended statement at a concrete failing initialization. -/
theorem c1_no_early_return_witness :
    (runICP oracleC1 1 cloud0 sC1).1.m_initialized = false ∧
    (runICP oracleC1 1 cloud0 sC1).1.m_init_attempts = sC1.m_init_attempts + 1 ∧
    (runICP oracleC1 1 cloud0 sC1).2
      = Warning.initFailed :: (updateLoop sC1.m_markerConfigurations sC1.m_dynamicsConfigurations
          oracleC1 1 cloud0
          (initializeRun sC1.m_markerConfigurations oracleC1 sC1.m_objects cloud0).objects).2 ∧
    (runICP oracleC1 1 cloud0 sC1).1.m_objects
      = (updateLoop sC1.m_markerConfigurations sC1.m_dynamicsConfigurations oracleC1 1 cloud0
          (initializeRun sC1.m_markerConfigurations oracleC1 sC1.m_objects cloud0).objects).1 :=
  c1_no_early_return oracleC1 1 cloud0 sC1 rfl (by decide)

/-- Counterexample to C1 as stated: on this tracker the initialization
attempt fails and the flag stays false, yet the update does not leave the
bodies untouched — the per-body loop runs, the (converging, gate-passing)
alignment commits, and the body's valid flag flips from false to true. -/
theorem c1_counterexample :
    (initializeRun sC1.m_markerConfigurations oracleC1 sC1.m_objects cloud0).success = false ∧
    (runICP oracleC1 1 cloud0 sC1).1.m_initialized = false ∧
    sC1.m_objects.map (·.m_lastTransformationValid) = [false] ∧
    (runICP oracleC1 1 cloud0 sC1).1.m_objects.map (·.m_lastTransformationValid) = [true] := by
  decide

end LRBT

namespace LRBT

/-- The initializer's per-body step touches only `m_lastTransformation`:
valid time and valid flag are untouched. -/
theorem initStep_preserves (mcfgs : List Cloud) (oracle : IcpOracle) (md2 : ℚ)
    (c : TCloud) (obj : Object) :
    (initStep mcfgs oracle md2 c obj).object.m_lastValidTransform = obj.m_lastValidTransform ∧
    (initStep mcfgs oracle md2 c obj).object.m_lastTransformationValid
      = obj.m_lastTransformationValid := by
  simp only [initStep]
  split
  · exact ⟨rfl, rfl⟩
  · split
    · exact ⟨rfl, rfl⟩
    · exact ⟨rfl, rfl⟩

/-- Along the initializer's loop, each object keeps its valid time. -/
theorem initLoop_time (mcfgs : List Cloud) (oracle : IcpOracle) (md2 : ℚ) :
    ∀ (objs : List Object) (c : TCloud) (i : ℕ),
    ((initLoop mcfgs oracle md2 objs c).1[i]?.map fun o => o.m_lastValidTransform)
      = (objs[i]?.map fun o => o.m_lastValidTransform) := by
  intro objs
  induction objs with
  | nil => intro c i; rfl
  | cons o os ih =>
    intro c i
    cases i with
    | zero =>
      simp only [initLoop, List.getElem?_cons_zero, Option.map_some',
        (initStep_preserves mcfgs oracle md2 c o).1]
    | succ j =>
      simp only [initLoop, List.getElem?_cons_succ]
      exact ih _ j

/-- The tracking loop maps `perBody` over the objects. -/
theorem updateLoop_fst (mcfgs : List Cloud) (dcfgs : List DynamicsConfiguration)
    (oracle : IcpOracle) (stamp : ℚ) (markers : Cloud) : ∀ os : List Object,
    (updateLoop mcfgs dcfgs oracle stamp markers os).1
      = os.map fun o => (perBody mcfgs dcfgs oracle stamp markers o).1 := by
  intro os
  induction os with
  | nil => rfl
  | cons o os ih => simp only [updateLoop, List.map_cons, ih]

/-- After `perBody`, a set valid flag comes with the frame stamp as valid
time; a clear valid flag comes with the old valid time. -/
theorem perBody_valid_time (mcfgs : List Cloud) (dcfgs : List DynamicsConfiguration)
    (oracle : IcpOracle) (stamp : ℚ) (markers : Cloud) (obj : Object) :
    ((perBody mcfgs dcfgs oracle stamp markers obj).1.m_lastTransformationValid = true →
      (perBody mcfgs dcfgs oracle stamp markers obj).1.m_lastValidTransform = stamp) ∧
    ((perBody mcfgs dcfgs oracle stamp markers obj).1.m_lastTransformationValid = false →
      (perBody mcfgs dcfgs oracle stamp markers obj).1.m_lastValidTransform
        = obj.m_lastValidTransform) := by
  simp only [perBody]
  split
  · exact ⟨fun h => by simp at h, fun _ => rfl⟩
  · split
    · exact ⟨fun _ => rfl, fun h => by simp at h⟩
    · exact ⟨fun h => by simp at h, fun _ => rfl⟩

/-- C6: after any update with stamp t, a body whose valid flag is true has
valid time t, and a body whose valid flag is false keeps the valid time it
had before the call. -/
theorem c6_valid_time (oracle : IcpOracle) (stamp : ℚ) (cloud : Cloud) (s : ObjectTracker)
    (i : ℕ) (o o' : Object)
    (h1 : s.m_objects[i]? = some o)
    (h2 : (runICP oracle stamp cloud s).1.m_objects[i]? = some o') :
    (o'.m_lastTransformationValid = true → o'.m_lastValidTransform = stamp) ∧
    (o'.m_lastTransformationValid = false → o'.m_lastValidTransform = o.m_lastValidTransform) := by
  simp only [runICP] at h2
  cases hin : s.m_initialized with
  | true =>
    rw [hin] at h2
    rw [if_pos rfl] at h2
    rw [updateLoop_fst, List.getElem?_map, h1] at h2
    simp only [Option.map_some', Option.some.injEq] at h2
    subst h2
    exact perBody_valid_time s.m_markerConfigurations s.m_dynamicsConfigurations
      oracle stamp cloud o
  | false =>
    rw [hin] at h2
    rw [if_neg (by decide : ¬(false = true))] at h2
    simp only [initializeRun] at h2
    rw [updateLoop_fst, List.getElem?_map] at h2
    have htime := initLoop_time s.m_markerConfigurations oracle (max_deviation2 s.m_objects)
      s.m_objects (tagFrom 0 cloud) i
    cases ho1 : (initLoop s.m_markerConfigurations oracle (max_deviation2 s.m_objects)
        s.m_objects (tagFrom 0 cloud)).1[i]? with
    | none => rw [ho1] at h2; simp at h2
    | some o1 =>
      rw [ho1] at h2
      simp only [Option.map_some', Option.some.injEq] at h2
      subst h2
      rw [ho1, h1] at htime
      simp only [Option.map_some', Option.some.injEq] at htime
      have hp := perBody_valid_time s.m_markerConfigurations s.m_dynamicsConfigurations
        oracle stamp cloud o1
      exact ⟨hp.1, fun hv => (hp.2 hv).trans htime⟩

end LRBT

namespace LRBT

/-- Witness for C6 on a concrete update whose body commits: the resulting
body carries the frame stamp as valid time. -/
theorem c6_valid_time_witness :
    ((⟨0, 0, Aff.id3, 0, 1, true⟩ : Object).m_lastTransformationValid = true →
      (⟨0, 0, Aff.id3, 0, 1, true⟩ : Object).m_lastValidTransform = 1) ∧
    ((⟨0, 0, Aff.id3, 0, 1, true⟩ : Object).m_lastTransformationValid = false →
      (⟨0, 0, Aff.id3, 0, 1, true⟩ : Object).m_lastValidTransform
        = obj0.m_lastValidTransform) :=
  c6_valid_time oracleA 1 cloud0 sC1 0 obj0 ⟨0, 0, Aff.id3, 0, 1, true⟩
    (by decide) (by decide)

/-- A left fold of `stdmin` is a lower bound of its seed and of every list
element, and is either the seed or one of the elements. -/
theorem foldl_stdmin_spec : ∀ (l : List ℚ) (a : ℚ),
    (l.foldl stdmin a ≤ a ∧ ∀ q ∈ l, l.foldl stdmin a ≤ q) ∧
    (l.foldl stdmin a = a ∨ l.foldl stdmin a ∈ l) := by
  intro l
  induction l with
  | nil => intro a; exact ⟨⟨le_refl a, by simp⟩, Or.inl rfl⟩
  | cons b t ih =>
    intro a
    have hmin : stdmin a b ≤ a ∧ stdmin a b ≤ b := by
      unfold stdmin
      split
    
      · exact ⟨le_of_lt (by assumption), le_refl b⟩
      · exact ⟨le_refl a, le_of_not_lt (by assumption)⟩
    have hrec := ih (stdmin a b)
    refine ⟨⟨hrec.1.1.trans hmin.1, ?_⟩, ?_⟩
    · intro q hq
      rcases List.mem_cons.mp hq with h | h
      · exact h ▸ hrec.1.1.trans hmin.2
      · exact hrec.1.2 q h
    · rcases hrec.2 with h | h
      · rw [List.foldl_cons, h]
        unfold stdmin
        split
        · exact Or.inr (List.mem_cons_self b t)
        · exact Or.inl rfl
      · exact Or.inr (List.mem_cons_of_mem b h)

/-- C7 (squared encoding): the deviation bound is one ninth of the squared
minimum pairwise distance between nominal centers (`(closest/3)²`), that
minimum is a true lower bound over the pairs attained at one of them (or the
`FLT_MAX²` seed when there is no pair), and a body whose k-nearest-neighbour
centroid deviates beyond the bound is marked failed and consumes nothing. -/
theorem c7_deviation_gate (objs : List Object) (mcfgs : List Cloud) (oracle : IcpOracle)
    (c : TCloud) (obj : Object)
    (hgate : (initActualCenter c obj.center
        (mcfgs.getD obj.m_markerConfigurationIdx []).length - obj.center).sqNorm
      > max_deviation2 objs) :
    max_deviation2 objs = closest2 objs / 9 ∧
    (∀ q ∈ closest2.pairSq objs, closest2 objs ≤ q) ∧
    (closest2 objs = FLT_MAX ^ 2 ∨ closest2 objs ∈ closest2.pairSq objs) ∧
    initStep mcfgs oracle (max_deviation2 objs) c obj = ⟨obj, c, false, [], []⟩ := by
  have hspec := foldl_stdmin_spec (closest2.pairSq objs) (FLT_MAX ^ 2)
  refine ⟨rfl, fun q hq => hspec.1.2 q hq, hspec.2, ?_⟩
  simp only [initStep]
  rw [if_pos hgate]

/-- Witness for C7: two bodies 0.3 m apart give a small deviation bound; a
lone faraway observation puts the candidate centroid 5 m off, so the first
body fails the gate and consumes nothing. -/
theorem c7_deviation_gate_witness :
    max_deviation2 [obj0, objB] = closest2 [obj0, objB] / 9 ∧
    (∀ q ∈ closest2.pairSq [obj0, objB], closest2 [obj0, objB] ≤ q) ∧
    (closest2 [obj0, objB] = FLT_MAX ^ 2 ∨ closest2 [obj0, objB] ∈ closest2.pairSq [obj0, objB]) ∧
    initStep mcfg1 oracleA (max_deviation2 [obj0, objB]) cloud7T obj0
      = ⟨obj0, cloud7T, false, [], []⟩ :=
  c7_deviation_gate [obj0, objB] mcfg1 oracleA cloud7T obj0 (by decide)

end LRBT

namespace LRBT

/-- The second component of a fit-check entry is true iff the query had a
nearest neighbour within the 5 mm (squared) bound. -/
theorem fitEntry_snd (o : Option (ℕ × ℚ)) :
    ((match o with
      | some pd => ((some pd.1 : Option ℕ), decide (pd.2 ≤ INIT_MAX_HAUSDORFF_DIST2))
      | none => ((none : Option ℕ), false)).2 = true)
    ↔ ∃ pd, o = some pd ∧ pd.2 ≤ INIT_MAX_HAUSDORFF_DIST2 := by
  cases o <;> simp

/-- All fit checks pass iff every transformed model marker has a nearest
observed marker within the 5 mm (squared) bound. -/
theorem fitChecks_all_iff (c : TCloud) (tr : Aff) (ms : Cloud) :
    ((fitChecks c tr ms).all (fun e => e.2) = true) ↔
      ∀ m ∈ ms, ∃ pd, (nearestK c (tr.apply m) 1).head? = some pd ∧
        pd.2 ≤ INIT_MAX_HAUSDORFF_DIST2 := by
  unfold fitChecks
  rw [List.all_eq_true]
  constructor
  · intro h m hm
    exact (fitEntry_snd _).mp (h _ (List.mem_map_of_mem _ hm))
  · intro h e he
    obtain ⟨m, hm, rfl⟩ := List.mem_map.mp he
    exact (fitEntry_snd _).mpr (h m hm)

/-- C4: for a body past the centroid-deviation gate, the fit is accepted iff
every model marker transformed by the best yaw-sweep transform has its single
nearest observed marker within (5 mm)² = 2.5e-5; on acceptance the body's
transformation becomes the best transform and the consumed markers are erased
from the mutable cloud; and the initializer succeeds iff every body's fit was
accepted. -/
theorem c4_fit_acceptance (mcfgs : List Cloud) (oracle : IcpOracle) (maxDev2 : ℚ)
    (c : TCloud) (obj : Object) (objs : List Object) (cloud : Cloud)
    (hpass : ¬ (initActualCenter c obj.center
        (mcfgs.getD obj.m_markerConfigurationIdx []).length - obj.center).sqNorm > maxDev2) :
    ((initStep mcfgs oracle maxDev2 c obj).accepted = true ↔
      ∀ m ∈ mcfgs.getD obj.m_markerConfigurationIdx [],
        ∃ pd, (nearestK c ((bestYaw oracle (untag c)
            (mcfgs.getD obj.m_markerConfigurationIdx [])
            (initActualCenter c obj.center
              (mcfgs.getD obj.m_markerConfigurationIdx []).length)).apply m) 1).head?
          = some pd ∧ pd.2 ≤ INIT_MAX_HAUSDORFF_DIST2) ∧
    ((initStep mcfgs oracle maxDev2 c obj).accepted = true →
      (initStep mcfgs oracle maxDev2 c obj).object
          = { obj with m_lastTransformation := (bestYaw oracle (untag c)
              (mcfgs.getD obj.m_markerConfigurationIdx [])
              (initActualCenter c obj.center
                (mcfgs.getD obj.m_markerConfigurationIdx []).length)) } ∧
      (initStep mcfgs oracle maxDev2 c obj).cloud
          = (eraseTake c (sortDesc (initStep mcfgs oracle maxDev2 c obj).takePts)).1) ∧
    ((initializeRun mcfgs oracle objs cloud).success = true ↔
      ∀ a ∈ (initializeRun mcfgs oracle objs cloud).accepted, a = true) := by
  refine ⟨?_, ?_, ?_⟩
  · simp only [initStep, if_neg hpass]
    split
    · rename_i hfit
      simpa using (fitChecks_all_iff c _ _).mp hfit
    · rename_i hfit
      simp only [Bool.false_eq_true, false_iff]
      intro hall
      exact hfit ((fitChecks_all_iff c _ _).mpr hall)
  · simp only [initStep, if_neg hpass]
    split
    · intro _; exact ⟨rfl, rfl⟩
    · intro h; simp at h
  · simp only [initializeRun]
    rw [List.all_eq_true]
    simp

/-- Witness for C4 at a concrete one-body initialization. -/
theorem c4_fit_acceptance_witness :
    (initializeRun mcfg1 oracleA [obj0] cloud0).success = true ↔
      ∀ a ∈ (initializeRun mcfg1 oracleA [obj0] cloud0).accepted, a = true :=
  (c4_fit_acceptance mcfg1 oracleA 100 (tagFrom 0 cloud0) obj0 [obj0] cloud0 (by decide)).2.2

end LRBT

namespace LRBT

/-- Erasing a present element is a permutation-preserving split. -/
theorem perm_cons_eraseIdx : ∀ (c : TCloud) (i : ℕ) (p : ℕ × Vec3),
    c.get? i = some p → c.Perm (p :: c.eraseIdx i) := by
  intro c
  induction c with
  | nil => intro i p h; simp at h
  | cons a t ih =>
    intro i p h
    cases i with
    | zero =>
      simp only [List.get?] at h
      cases h
      exact List.Perm.refl _
    | succ j =>
      simp only [List.get?] at h
      have hs := (ih j p h).cons a
      exact hs.trans (List.Perm.swap p a _)

/-- The erase loop splits the cloud into the taken entries and the rest, up
to permutation. -/
theorem eraseTake_perm : ∀ (idxs : List ℕ) (c : TCloud),
    c.Perm ((eraseTake c idxs).2 ++ (eraseTake c idxs).1) := by
  intro idxs
  induction idxs with
  | nil => intro c; simp [eraseTake]
  | cons i is ih =>
    intro c
    simp only [eraseTake]
    split
    · rename_i p hg
      have h1 := perm_cons_eraseIdx c i p hg
      have h2 := (ih (c.eraseIdx i)).cons p
      exact (h1.trans h2).trans (by simp)
    · exact ih c

/-- The descending sort permutes its input. -/
theorem sortDesc_perm (l : List ℕ) : (sortDesc l).Perm l :=
  List.perm_insertionSort _ l

/-- When every fit check passes, each model marker contributed one index. -/
theorem fitChecks_filterMap_length (c : TCloud) (tr : Aff) : ∀ ms : Cloud,
    (fitChecks c tr ms).all (fun e => e.2) = true →
    ((fitChecks c tr ms).filterMap Prod.fst).length = ms.length := by
  intro ms
  induction ms with
  | nil => intro _; rfl
  | cons m t ih =>
    intro h
    simp only [fitChecks, List.map_cons, List.all_cons, Bool.and_eq_true] at h
    cases hh : (nearestK c (tr.apply m) 1).head? with
    | none => rw [hh] at h; simp at h
    | some pd =>
      rw [hh] at h
      have ht := ih (by simpa [fitChecks] using h.2)
      simp only [fitChecks, List.map_cons, hh]
      rw [List.filterMap_cons_some (f := Prod.fst)
        (a := ((some pd.1 : Option ℕ), decide (pd.2 ≤ INIT_MAX_HAUSDORFF_DIST2)))
        (b := pd.1) rfl]
      simp only [fitChecks] at ht
      simp only [List.length_cons]
      omega

end LRBT

namespace LRBT

/-- Each object step splits the cloud into its taken entries and the rest. -/
theorem initStep_perm (mcfgs : List Cloud) (oracle : IcpOracle) (md2 : ℚ)
    (c : TCloud) (obj : Object) :
    c.Perm ((initStep mcfgs oracle md2 c obj).taken ++ (initStep mcfgs oracle md2 c obj).cloud) := by
  simp only [initStep]
  split
  · simp
  · split
    · exact eraseTake_perm _ c
    · simp

/-- The initializer's loop splits the initial cloud into all removed entries
and the final cloud, up to permutation. -/
theorem initLoop_perm (mcfgs : List Cloud) (oracle : IcpOracle) (md2 : ℚ) :
    ∀ (objs : List Object) (c : TCloud),
    c.Perm ((initLoop mcfgs oracle md2 objs c).2.2.2.1.flatten
      ++ (initLoop mcfgs oracle md2 objs c).2.1) := by
  intro objs
  induction objs with
  | nil => intro c; simp [initLoop]
  | cons o os ih =>
    intro c
    simp only [initLoop, List.flatten_cons, List.append_assoc]
    have h1 := initStep_perm mcfgs oracle md2 c o
    have h2 := (ih (initStep mcfgs oracle md2 c o).cloud).append_left
      (initStep mcfgs oracle md2 c o).taken
    exact h1.trans h2

/-- The tags of a freshly tagged cloud are consecutive. -/
theorem tagFrom_map_fst : ∀ (cl : Cloud) (i : ℕ),
    (tagFrom i cl).map Prod.fst = List.range' i cl.length := by
  intro cl
  induction cl with
  | nil => intro i; rfl
  | cons p ps ih =>
    intro i
    simp only [tagFrom, List.map_cons, List.length_cons, List.range'_succ, ih]

end LRBT

namespace LRBT

/-- When every erase acts in bounds (the C++ behavior is defined), the erase
loop removes exactly one entry per index. -/
theorem eraseTake_length_ok : ∀ (idxs : List ℕ) (c : TCloud),
    erasesOk c idxs = true → (eraseTake c idxs).2.length = idxs.length := by
  intro idxs
  induction idxs with
  | nil => intro c _; rfl
  | cons i is ih =>
    intro c h
    simp only [erasesOk, Bool.and_eq_true, decide_eq_true_eq] at h
    obtain ⟨h1, h2⟩ := h
    cases hg : c.get? i with
    | none =>
      rw [List.get?_eq_none] at hg
      omega
    | some p =>
      simp only [eraseTake, hg]
      simp [ih _ h2]

/-- An accepted body whose erase sequence is in bounds takes exactly as many
observed markers as its configuration has model markers. -/
theorem initStep_taken_length_ok (mcfgs : List Cloud) (oracle : IcpOracle) (md2 : ℚ)
    (c : TCloud) (obj : Object)
    (hacc : (initStep mcfgs oracle md2 c obj).accepted = true)
    (hok : erasesOk c (sortDesc (initStep mcfgs oracle md2 c obj).takePts) = true) :
    (initStep mcfgs oracle md2 c obj).taken.length
      = (mcfgs.getD obj.m_markerConfigurationIdx []).length := by
  simp only [initStep] at hacc hok ⊢
  split at hacc
  · simp at hacc
  · rename_i hgate
    rw [if_neg hgate] at hok ⊢
    split at hacc
    · rename_i hfit
      rw [if_pos hfit] at hok ⊢
      exact (eraseTake_length_ok _ c (by simpa using hok)).trans
        (((sortDesc_perm _).length_eq).trans (fitChecks_filterMap_length c _ _ hfit))
    · simp at hacc

/-- When every body is accepted and every accepted body's erase sequence is
in bounds, the per-body removal counts sum to the marker-configuration
sizes. -/
theorem initLoop_removed_sum_ok (mcfgs : List Cloud) (oracle : IcpOracle) (md2 : ℚ) :
    ∀ (objs : List Object) (c : TCloud),
    (initLoop mcfgs oracle md2 objs c).2.2.1.all id = true →
    initErasesOk mcfgs oracle md2 objs c = true →
    ((initLoop mcfgs oracle md2 objs c).2.2.2.1.map List.length).sum
      = (objs.map fun o => (mcfgs.getD o.m_markerConfigurationIdx []).length).sum := by
  intro objs
  induction objs with
  | nil => intro c _ _; rfl
  | cons o os ih =>
    intro c hall hok
    simp only [initLoop, List.all_cons, Bool.and_eq_true, id_eq, List.map_cons,
      List.sum_cons] at hall ⊢
    simp only [initErasesOk, Bool.and_eq_true] at hok
    have hok1 : erasesOk c (sortDesc (initStep mcfgs oracle md2 c o).takePts) = true := by
      have h := hok.1
      rw [hall.1] at h
      simpa using h
    rw [initStep_taken_length_ok mcfgs oracle md2 c o hall.1 hok1, ih _ hall.2 hok.2]

/-- Spec property P3, over the executions whose C++ behavior is defined:
when every erase of the initializer acts on a dereferenceable iterator and
initialization succeeds, the markers removed from the private cloud number
exactly the sum of the bodies' marker-configuration sizes, and the per-body
removed sets are pairwise disjoint — no observed marker is assigned to more
than one rigid body. -/
theorem c3_defined_consumption (mcfgs : List Cloud) (oracle : IcpOracle)
    (objs : List Object) (cloud : Cloud)
    (hs : (initializeRun mcfgs oracle objs cloud).success = true)
    (hok : initErasesOk mcfgs oracle (max_deviation2 objs) objs (tagFrom 0 cloud) = true) :
    (initializeRun mcfgs oracle objs cloud).removed.flatten.length
        = (objs.map fun o => (mcfgs.getD o.m_markerConfigurationIdx []).length).sum ∧
    ((initializeRun mcfgs oracle objs cloud).removed.map (fun l => l.map Prod.fst)).Pairwise
      List.Disjoint := by
  simp only [initializeRun] at hs ⊢
  constructor
  · rw [List.length_flatten]
    exact initLoop_removed_sum_ok mcfgs oracle (max_deviation2 objs) objs (tagFrom 0 cloud) hs hok
  · have hperm := initLoop_perm mcfgs oracle (max_deviation2 objs) objs (tagFrom 0 cloud)
    have hmap := hperm.map Prod.fst
    rw [List.map_append] at hmap
    have hfst : ((tagFrom 0 cloud).map Prod.fst).Nodup := by
      rw [tagFrom_map_fst]
      exact List.nodup_range' 0 cloud.length
    have hnd2 := hmap.nodup hfst
    have hnd3 := (List.nodup_append.mp hnd2).1
    rw [List.map_flatten] at hnd3
    exact (List.nodup_flatten.mp hnd3).2

/-- C3's failing input, evaluated: two coincident model markers and a yaw
sweep landing on the far observed marker make every fit check pass against
that one marker (`objTakePts = [1, 1]`), and initialization reports success;
but after the first erase of index 1 the cloud holds one point, so the
second `markers->erase(markers->begin() + 1)` is `erase(end())` — undefined
behavior in the source (`erasesOk` is false).  `success` here is insensitive
to how the out-of-range erase is modelled: with a single body the erased
cloud is never read again. -/
theorem c3_erase_out_of_range :
    (initializeRun mcfgsC3 oracleC3 [obj0] cloudC3).success = true ∧
    (initializeRun mcfgsC3 oracleC3 [obj0] cloudC3).takePts = [[1, 1]] ∧
    erasesOk (tagFrom 0 cloudC3) (sortDesc [1, 1]) = false ∧
    initErasesOk mcfgsC3 oracleC3 (max_deviation2 [obj0]) [obj0] (tagFrom 0 cloudC3) = false := by
  decide

end LRBT
